import Mathlib

/-!
Verification development for the declutter repository (TypeScript).

The definitions below are a shallow embedding of the code in
src/page.ts (class Scraper), src/outputs.ts (pathFromUrl, writeOutput),
src/declutter.ts (declutterUrl, objectToMarkdownTable), src/llm.ts
(declutterToMarkdown) and src/utility.ts (convertToMarkDown rules,
StringBuilder).  JavaScript string primitives used by that code
(String.prototype.startsWith, replaceAll, split, trim) are embedded as
executable Lean functions over the character list of a string, with the
same semantics as the JavaScript originals on the inputs the code uses.

Asynchronous, fallible operations (puppeteer navigation, page close,
browser close, the streamed model call, file-system writes) are embedded
by threading explicit outcome flags: each primitive operation is given a
boolean saying whether its promise rejects, and the embedding computes
the resulting control flow (which value is returned or which error
propagates) exactly as the try/catch/finally structure of the source
dictates.
-/

namespace Declutter

/-- JavaScript String.prototype.startsWith: is the pattern a prefix of the
string.  Used for the src checks of the image rule in utility.ts. -/
def jsStartsWith (s p : String) : Bool :=
  p.data.isPrefixOf s.data

/-- Fuel-driven worker for JavaScript String.prototype.replaceAll with a
non-empty string pattern: scan left to right, replace each non-overlapping
occurrence, never rescan the replacement text.  The fuel is an upper bound
on the number of characters still to be scanned. -/
def replaceAllFuel (pat rep : List Char) : Nat → List Char → List Char
  | _, [] => []
  | 0, l => l
  | Nat.succ fuel, c :: rest =>
    if pat.isPrefixOf (c :: rest) then
      rep ++ replaceAllFuel pat rep fuel (rest.drop (pat.length - 1))
    else
      c :: replaceAllFuel pat rep fuel rest

/-- JavaScript String.prototype.replaceAll with a string (non-regex)
pattern.  The source only calls it with the non-empty patterns
"www." and ".", for which this is exactly the JavaScript semantics. -/
def jsReplaceAll (s pat rep : String) : String :=
  if pat = "" then s
  else ⟨replaceAllFuel pat.data rep.data s.data.length s.data⟩

/-- JavaScript String.prototype.split with a one-character separator, as
used by pathFromUrl to split the pathname at slashes. -/
def splitOnChar (sep : Char) : List Char → List (List Char)
  | [] => [[]]
  | c :: rest =>
    match splitOnChar sep rest with
    | [] => [[]]
    | seg :: segs =>
      if c = sep then [] :: seg :: segs
      else (c :: seg) :: segs

/-- JavaScript String.prototype.trim: strip whitespace from both ends. -/
def jsTrim (s : String) : String :=
  ⟨((s.data.dropWhile Char.isWhitespace).reverse.dropWhile Char.isWhitespace).reverse⟩

/-- Concatenation of a list of strings (Array.prototype.join with an empty
separator). -/
def concatAll : List String → String
  | [] => ""
  | s :: rest => s ++ concatAll rest

/-- JavaScript Array.prototype.join with a separator. -/
def joinSep (sep : String) : List String → String
  | [] => ""
  | [s] => s
  | s :: rest => s ++ sep ++ joinSep sep rest

/-! ## outputs.ts: pathFromUrl -/

/-- The two fields of a WHATWG URL that pathFromUrl reads. -/
structure Url where
  hostname : String
  pathname : String
deriving DecidableEq

/-- Result record of pathFromUrl.  The source names the second field
fileNamePrefix; it is the stem of the output file name. -/
structure UrlPathParts where
  directory : String
  fileStem : String
deriving DecidableEq

/-- outputs.ts pathFromUrl: directory is
url.hostname.replaceAll("www.", "").replaceAll(".", "-"); the file stem is
the last non-empty trimmed segment of url.pathname, or "index" when the
pathname is "/" or empty or has no non-empty segment. -/
def pathFromUrl (url : Url) : UrlPathParts :=
  let directory := jsReplaceAll (jsReplaceAll url.hostname "www." "") "." "-"
  if url.pathname = "/" ∨ url.pathname = "" then
    ⟨directory, "index"⟩
  else
    let pathSegments :=
      ((splitOnChar '/' url.pathname.data).map (fun seg => jsTrim ⟨seg⟩)).filter
        (fun seg => seg ≠ "")
    if pathSegments = [] then
      ⟨directory, "index"⟩
    else
      ⟨directory, pathSegments.getLastD ""⟩

/-- The directory the specification text describes: host with only a
LEADING "www." stripped, then dots replaced by hyphens.  Stated from the
spec wording, to be compared with the source computation above. -/
def specLeadingWwwDirectory (hostname : String) : String :=
  let stripped := if jsStartsWith hostname "www." then ⟨hostname.data.drop 4⟩ else hostname
  jsReplaceAll stripped "." "-"

/-- When the pattern occurs nowhere in the list, replaceAllFuel leaves the
list unchanged (given enough fuel). -/
theorem replaceAllFuel_eq_self_of_no_occurrence (pat rep : List Char) :
    ∀ (fuel : Nat) (l : List Char), l.length ≤ fuel → ¬(pat <:+: l) →
      replaceAllFuel pat rep fuel l = l := by
  intro fuel
  induction fuel with
  | zero =>
    intro l hlen _
    cases l with
    | nil => rfl
    | cons c rest => simp at hlen
  | succ fuel ih =>
    intro l hlen hocc
    cases l with
    | nil => rfl
    | cons c rest =>
      have hpre : ¬(pat <+: (c :: rest)) := fun h => hocc h.isInfix
      have hb : pat.isPrefixOf (c :: rest) = false := by
        cases h : pat.isPrefixOf (c :: rest)
        · rfl
        · exact absurd (List.isPrefixOf_iff_prefix.mp h) hpre
      have hrest : ¬(pat <:+: rest) := fun h => hocc (List.infix_cons_iff.mpr (Or.inr h))
      simp [replaceAllFuel, hb, ih rest (by simpa using Nat.le_of_succ_le_succ hlen) hrest]

/-- Replacing a single-character pattern by a single-character replacement is
a character map (given enough fuel). -/
theorem replaceAllFuel_single (a b : Char) :
    ∀ (fuel : Nat) (l : List Char), l.length ≤ fuel →
      replaceAllFuel [a] [b] fuel l = l.map (fun c => if c = a then b else c) := by
  intro fuel
  induction fuel with
  | zero =>
    intro l hlen
    cases l with
    | nil => rfl
    | cons c rest => simp at hlen
  | succ fuel ih =>
    intro l hlen
    cases l with
    | nil => rfl
    | cons c rest =>
      have hrest : rest.length ≤ fuel := by simpa using Nat.le_of_succ_le_succ hlen
      by_cases hc : a = c
      · subst hc
        simp [replaceAllFuel, List.isPrefixOf, ih rest hrest]
      · have : (a == c) = false := by simp [hc]
        simp [replaceAllFuel, List.isPrefixOf, this, ih rest hrest, Ne.symm hc]

/-- The directory part of pathFromUrl is the same double replaceAll
computation on every branch. -/
theorem pathFromUrl_directory (url : Url) :
    (pathFromUrl url).directory =
      jsReplaceAll (jsReplaceAll url.hostname "www." "") "." "-" := by
  unfold pathFromUrl
  dsimp only
  split
  · rfl
  · split <;> rfl

/-- replaceAll with the pattern "www." leaves a hostname without any
occurrence of that substring unchanged. -/
theorem jsReplaceAll_www_of_no_occurrence (s : String) (h : ¬("www.".data <:+: s.data)) :
    jsReplaceAll s "www." "" = s := by
  unfold jsReplaceAll
  rw [if_neg (by decide)]
  rw [replaceAllFuel_eq_self_of_no_occurrence _ _ _ _ Nat.le.refl h]

/-- replaceAll with the one-character pattern "." and replacement "-" maps
every dot of the string to a hyphen. -/
theorem jsReplaceAll_dot_hyphen (s : String) :
    jsReplaceAll s "." "-" = ⟨s.data.map (fun c => if c = '.' then '-' else c)⟩ := by
  unfold jsReplaceAll
  rw [if_neg (by decide)]
  rw [replaceAllFuel_single _ _ _ _ Nat.le.refl]

/-- C2 counterexample: the claim says a LEADING "www." is stripped from the
host, but the source removes every occurrence of the substring "www.".  On
the host foo.www.bar.com the source yields foo-bar-com while the claimed
computation yields foo-www-bar-com. -/
theorem pathFromUrl_leading_www_counterexample :
    (pathFromUrl ⟨"foo.www.bar.com", "/x"⟩).directory = "foo-bar-com" ∧
    specLeadingWwwDirectory "foo.www.bar.com" = "foo-www-bar-com" ∧
    (pathFromUrl ⟨"foo.www.bar.com", "/x"⟩).directory ≠
      specLeadingWwwDirectory "foo.www.bar.com" := by
  refine ⟨by decide, by decide, by decide⟩

/-- C2 (amended): pathFromUrl returns directory equal to the host with
EVERY occurrence of the substring "www." removed and every dot replaced by
a hyphen (so on a host with no "www." occurrence it is exactly the host
with dots mapped to hyphens); the file stem is the last non-empty trimmed
path segment, or "index" when the path is "/", empty, or has no non-empty
segment; https colon slash slash example.com/blog/my-post yields directory
example-com and file stem my-post. -/
theorem pathFromUrl_spec :
    pathFromUrl ⟨"example.com", "/blog/my-post"⟩ = ⟨"example-com", "my-post"⟩ ∧
    (∀ url : Url, (pathFromUrl url).directory =
      jsReplaceAll (jsReplaceAll url.hostname "www." "") "." "-") ∧
    (∀ url : Url, ¬("www.".data <:+: url.hostname.data) →
      (pathFromUrl url).directory =
        ⟨url.hostname.data.map (fun c => if c = '.' then '-' else c)⟩) ∧
    (∀ host : String, (pathFromUrl ⟨host, "/"⟩).fileStem = "index" ∧
      (pathFromUrl ⟨host, ""⟩).fileStem = "index") ∧
    (∀ url : Url, url.pathname ≠ "/" → url.pathname ≠ "" →
      (pathFromUrl url).fileStem =
        (if ((splitOnChar '/' url.pathname.data).map
            (fun seg => jsTrim ⟨seg⟩)).filter (fun seg => seg ≠ "") = [] then "index"
         else (((splitOnChar '/' url.pathname.data).map
            (fun seg => jsTrim ⟨seg⟩)).filter (fun seg => seg ≠ "")).getLastD "")) := by
  refine ⟨by decide, fun url => pathFromUrl_directory url, ?_, ?_, ?_⟩
  · intro url h
    rw [pathFromUrl_directory url, jsReplaceAll_www_of_no_occurrence _ h,
      jsReplaceAll_dot_hyphen]
  · intro host
    constructor
    · unfold pathFromUrl
      rw [if_pos (Or.inl rfl)]
    · unfold pathFromUrl
      rw [if_pos (Or.inr rfl)]
  · intro url h1 h2
    unfold pathFromUrl
    rw [if_neg (by simp [h1, h2])]
    dsimp only
    split <;> rfl

/-- Witness for pathFromUrl_spec: the no-www clause applied at the host
example.com, and the last-segment clause applied at the path /p/q. -/
theorem pathFromUrl_spec_witness :
    (pathFromUrl ⟨"example.com", "/"⟩).directory =
      (⟨"example.com".data.map (fun c => if c = '.' then '-' else c)⟩ : String) ∧
    (pathFromUrl ⟨"a.com", "/p/q"⟩).fileStem = "q" := by
  constructor
  · exact pathFromUrl_spec.2.2.1 ⟨"example.com", "/"⟩ (by decide)
  · have h := pathFromUrl_spec.2.2.2.2 ⟨"a.com", "/p/q"⟩ (by decide) (by decide)
    rw [h]
    decide

/-! ## utility.ts: the images rule of convertToMarkDown -/

/-- The title fragment of the emitted image markdown: a space and the title
in double quotes when the title is non-empty, nothing otherwise. -/
def imageTitlePart (title : String) : String :=
  if title ≠ "" then " \"" ++ title ++ "\"" else ""

/-- The absolute-source test src.match of caret https question colon slash
slash: does the source start with the scheme http or https. -/
def matchesHttp (s : String) : Bool :=
  jsStartsWith s "http://" || jsStartsWith s "https://"

/-- The replacement function of the images rule added by convertToMarkDown
in utility.ts: resolve the src against the origin hostname, then emit the
image markdown, or nothing when there is no resolvable source. -/
def imageReplacement (hostname alt srcAttr title : String) : String :=
  let src :=
    if srcAttr ≠ "" ∧ matchesHttp srcAttr = false then
      if jsStartsWith srcAttr "//" then "https:" ++ srcAttr
      else if jsStartsWith srcAttr "/" then hostname ++ srcAttr
      else hostname ++ "/" ++ srcAttr
    else srcAttr
  if src ≠ "" then "![" ++ alt ++ "](" ++ src ++ imageTitlePart title ++ ")" else ""

/-- A string that does not start with a slash does not start with two. -/
theorem jsStartsWith_doubleSlash_false (s : String)
    (h : jsStartsWith s "/" = false) : jsStartsWith s "//" = false := by
  obtain ⟨l⟩ := s
  cases l with
  | nil => rfl
  | cons c cs =>
    unfold jsStartsWith at h ⊢
    simp only [List.isPrefixOf] at h ⊢
    rcases Bool.and_eq_false_iff.mp h with h1 | h1
    · simp [h1]
    · simp at h1

/-- A string matching the http scheme test is non-empty. -/
theorem matchesHttp_ne_empty (s : String) (h : matchesHttp s = true) : s ≠ "" := by
  intro he
  subst he
  simp [matchesHttp, jsStartsWith, List.isPrefixOf] at h

/-- Appending to a non-empty string on the left gives a non-empty string. -/
theorem append_ne_empty_left (s t : String) (h : s ≠ "") : s ++ t ≠ "" := by
  intro hh
  apply h
  have hd := congrArg String.data hh
  rw [String.data_append] at hd
  exact String.ext (List.append_eq_nil.mp hd).1

/-- Appending a non-empty string on the right gives a non-empty string. -/
theorem append_ne_empty_right (s t : String) (h : t ≠ "") : s ++ t ≠ "" := by
  intro hh
  apply h
  have hd := congrArg String.data hh
  rw [String.data_append] at hd
  exact String.ext (List.append_eq_nil.mp hd).2

/-- C5: the images rule of convertToMarkDown.  An image with no resolvable
source emits nothing; a protocol-relative source gets the https scheme; an
absolute-path source is prefixed with the origin host; a relative source is
prefixed with the origin host and a slash; an http or https source is left
unchanged; in every emitted case the alt text appears in the brackets and a
non-empty title is appended in quotes. -/
theorem convertToMarkDown_images_rule (hostname alt title : String) :
    (imageReplacement hostname alt "" title = "") ∧
    (∀ rest : String,
      imageReplacement hostname alt ("//" ++ rest) title =
        "![" ++ alt ++ "](https://" ++ rest ++ imageTitlePart title ++ ")") ∧
    (∀ rest : String, jsStartsWith rest "/" = false →
      imageReplacement hostname alt ("/" ++ rest) title =
        "![" ++ alt ++ "](" ++ hostname ++ "/" ++ rest ++ imageTitlePart title ++ ")") ∧
    (∀ src : String, src ≠ "" → jsStartsWith src "/" = false → matchesHttp src = false →
      imageReplacement hostname alt src title =
        "![" ++ alt ++ "](" ++ hostname ++ "/" ++ src ++ imageTitlePart title ++ ")") ∧
    (∀ src : String, matchesHttp src = true →
      imageReplacement hostname alt src title =
        "![" ++ alt ++ "](" ++ src ++ imageTitlePart title ++ ")") := by
  refine ⟨?_, ?_, ?_, ?_, ?_⟩
  · simp [imageReplacement]
  · intro rest
    have hne : ("//" ++ rest) ≠ "" := append_ne_empty_left _ _ (by decide)
    have hm : matchesHttp ("//" ++ rest) = false := rfl
    have h2 : jsStartsWith ("//" ++ rest) "//" = true := by
      simp [jsStartsWith, List.isPrefixOf]
    unfold imageReplacement
    dsimp only
    rw [if_pos (show ("//" ++ rest) ≠ "" ∧ matchesHttp ("//" ++ rest) = false from
        ⟨hne, hm⟩),
      if_pos (show jsStartsWith ("//" ++ rest) "//" = true from h2),
      if_pos (show ("https:" ++ ("//" ++ rest)) ≠ "" from
        append_ne_empty_left "https:" _ (by decide))]
    refine String.ext ?_
    simp only [String.data_append, List.append_assoc]
    rfl
  · intro rest hr
    have hne : ("/" ++ rest) ≠ "" := append_ne_empty_left _ _ (by decide)
    have hm : matchesHttp ("/" ++ rest) = false := rfl
    have h2 : jsStartsWith ("/" ++ rest) "//" = false := hr
    have h1 : jsStartsWith ("/" ++ rest) "/" = true := by
      simp [jsStartsWith, List.isPrefixOf]
    unfold imageReplacement
    dsimp only
    rw [if_pos (show ("/" ++ rest) ≠ "" ∧ matchesHttp ("/" ++ rest) = false from
        ⟨hne, hm⟩),
      if_neg (show ¬jsStartsWith ("/" ++ rest) "//" = true from by
        rw [h2]; exact Bool.false_ne_true),
      if_pos (show jsStartsWith ("/" ++ rest) "/" = true from h1),
      if_pos (show (hostname ++ ("/" ++ rest)) ≠ "" from
        append_ne_empty_right hostname _ hne)]
    refine String.ext ?_
    simp only [String.data_append, List.append_assoc]
  · intro src hne h1 hm
    have h2 : jsStartsWith src "//" = false := jsStartsWith_doubleSlash_false src h1
    unfold imageReplacement
    dsimp only
    rw [if_pos (show src ≠ "" ∧ matchesHttp src = false from ⟨hne, hm⟩),
      if_neg (show ¬jsStartsWith src "//" = true from by
        rw [h2]; exact Bool.false_ne_true),
      if_neg (show ¬jsStartsWith src "/" = true from by
        rw [h1]; exact Bool.false_ne_true),
      if_pos (show (hostname ++ "/" ++ src) ≠ "" from
        append_ne_empty_right _ _ hne)]
    refine String.ext ?_
    simp only [String.data_append, List.append_assoc]
  · intro src hm
    have hne : src ≠ "" := matchesHttp_ne_empty src hm
    unfold imageReplacement
    dsimp only
    rw [if_neg (show ¬(src ≠ "" ∧ matchesHttp src = false) from by simp [hm]),
      if_pos (show src ≠ "" from hne)]

/-- Witness for the images rule: the absolute-path case applied at a
concrete source, and the no-source case at concrete inputs. -/
theorem convertToMarkDown_images_rule_witness :
    imageReplacement "example.com" "a pic" "/img/x.png" "shot" =
      "![a pic](example.com/img/x.png \"shot\")" := by
  have h :=
    (convertToMarkDown_images_rule "example.com" "a pic" "shot").2.2.1 "img/x.png"
      (by decide)
  rw [show ("/" ++ "img/x.png" : String) = "/img/x.png" from rfl] at h
  rw [h]
  decide

/-! ## utility.ts: the table rule of convertToMarkDown -/

/-- One markdown line for a table row: the cell texts trimmed and joined
with pipes.  A row is embedded as the list of textContent strings of its
td and th cells. -/
def rowLine (cells : List String) : String :=
  "| " ++ joinSep " | " (cells.map jsTrim) ++ " |\n"

/-- The separator line emitted after the header row: one dash cell per cell
of that row. -/
def sepLine (cells : List String) : String :=
  "| " ++ joinSep " | " (cells.map (fun _ => "---")) ++ " |\n"

/-- The replacement function of the table rule in utility.ts: iterate over
the rows with their index, append the row line, and after the row of index
zero also append the separator line. -/
def tableRule (rows : List (List String)) : String :=
  (rows.enum.map (fun p => rowLine p.2 ++ if p.1 = 0 then sepLine p.2 else "")).foldl
    (· ++ ·) ""

/-- Folding string concatenation from an arbitrary accumulator is the
accumulator followed by the concatenation of the list. -/
theorem foldl_append_eq_concatAll (l : List String) :
    ∀ a : String, l.foldl (· ++ ·) a = a ++ concatAll l := by
  induction l with
  | nil => intro a; simp [concatAll]
  | cons s rest ih =>
    intro a
    rw [List.foldl_cons, ih (a ++ s), concatAll, String.append_assoc]

/-- Rows enumerated from a positive index never get the separator line. -/
theorem enumFrom_map_no_sep (rows : List (List String)) :
    ∀ n : Nat,
      (rows.enumFrom (n + 1)).map
          (fun p => rowLine p.2 ++ if p.1 = 0 then sepLine p.2 else "") =
        rows.map rowLine := by
  induction rows with
  | nil => intro n; rfl
  | cons r rest ih =>
    intro n
    simp [List.enumFrom, ih (n + 1)]

/-- C6: on a table with at least one row, the table rule emits one
pipe-delimited line per row with each cell trimmed, and exactly one
separator line, placed immediately after the first row, whose dash-cell
count equals the first row's cell count; later rows keep their own cell
counts. -/
theorem tableRule_spec (first : List String) (rest : List (List String)) :
    tableRule (first :: rest) =
      rowLine first ++ sepLine first ++ concatAll (rest.map rowLine) ∧
    sepLine first =
      "| " ++ joinSep " | " (List.replicate first.length "---") ++ " |\n" := by
  constructor
  · unfold tableRule
    rw [List.enum_cons, List.map_cons, enumFrom_map_no_sep rest 0,
      List.foldl_cons, foldl_append_eq_concatAll]
    simp [String.append_assoc]
  · unfold sepLine
    rw [List.map_const']

/-! ## page.ts: class Scraper -/

/-- The state of a Scraper instance that close and isInitialized read: the
private browser field, null or a live handle.  The embedding keeps only
whether the handle is present. -/
structure Scraper where
  browser : Bool
deriving DecidableEq

/-- Error raised when the underlying browser.close() promise rejects. -/
inductive CloseError
  | terminationFailure
deriving DecidableEq

/-- page.ts Scraper.isInitialized: the browser field is not null. -/
def Scraper.isInitialized (s : Scraper) : Bool :=
  s.browser

/-- page.ts Scraper.close: when the browser handle is present, await
browser.close() and null the handle; otherwise do nothing.  The parameter
closeTermFails says whether the awaited browser.close() promise rejects; a
rejection propagates out of close (there is no try or catch around it) and
the handle is then left in place. -/
def Scraper.close (closeTermFails : Bool) (s : Scraper) : Except CloseError Scraper :=
  if s.browser then
    if closeTermFails then Except.error CloseError.terminationFailure
    else Except.ok ⟨false⟩
  else Except.ok s

/-- C3 counterexample: with a running browser whose termination fails,
Scraper.close propagates the rejection to the caller instead of logging it,
so close can throw. -/
theorem scraperClose_throws_counterexample :
    Scraper.close true ⟨true⟩ = Except.error CloseError.terminationFailure := by
  rfl

/-- C3 (amended): Scraper.close is a no-op that cannot throw when the
browser handle is absent; a second close after a successful close is a
no-op; with a running browser it terminates the browser and clears the
handle when the underlying termination succeeds, but a termination failure
propagates to the caller (it is neither caught nor logged). -/
theorem scraperClose_spec (t u : Bool) (s r : Scraper) :
    (s.browser = false → Scraper.close t s = Except.ok s) ∧
    (Scraper.close t s = Except.ok r → Scraper.close u r = Except.ok r) ∧
    (s.browser = true → t = false → Scraper.close t s = Except.ok ⟨false⟩) ∧
    (s.browser = true → t = true →
      Scraper.close t s = Except.error CloseError.terminationFailure) := by
  refine ⟨?_, ?_, ?_, ?_⟩
  · intro h
    simp [Scraper.close, h]
  · intro h
    rcases s with ⟨b⟩
    rcases r with ⟨c⟩
    revert h
    cases b <;> cases c <;> cases t <;> cases u <;> simp [Scraper.close]
  · intro hb ht
    simp [Scraper.close, hb, ht]
  · intro hb ht
    simp [Scraper.close, hb, ht]

/-- Witness for scraperClose_spec: closing a running browser whose
termination succeeds clears the handle, and a second close is a no-op. -/
theorem scraperClose_spec_witness :
    Scraper.close false ⟨true⟩ = Except.ok ⟨false⟩ ∧
    Scraper.close true ⟨false⟩ = Except.ok ⟨false⟩ := by
  have h1 := (scraperClose_spec false true ⟨true⟩ ⟨false⟩).2.2.1 rfl rfl
  exact ⟨h1, (scraperClose_spec false true ⟨true⟩ ⟨false⟩).2.1 h1⟩

/-! ## page.ts: Scraper.scrapePage -/

/-- The awaited operations inside the try block of scrapePage that can
reject, in source order: page.goto, page.waitForSelector, page.mouse.move,
the random scroll evaluate, page.content, page.screenshot.  The random
delays resolve via setTimeout and cannot reject, so they are not modelled
as failure points. -/
inductive Step
  | goto
  | waitSel
  | mouseMove
  | scroll
  | content
  | screenshot
deriving DecidableEq

/-- The options argument of scrapePage, reduced to which optional steps
run: whether waitForSelector was supplied, whether a screenshot was
requested, and whether options.humanBehavior is not false. -/
structure ScrapeOptions where
  waitForSelector : Bool
  screenshot : Bool
  humanBehavior : Bool
deriving DecidableEq

/-- The fallible operations the try block of scrapePage awaits, in source
order, for the given options. -/
def trySteps (o : ScrapeOptions) : List Step :=
  [Step.goto]
    ++ (if o.waitForSelector then [Step.waitSel] else [])
    ++ (if o.humanBehavior then [Step.mouseMove, Step.scroll] else [])
    ++ [Step.content]
    ++ (if o.screenshot then [Step.screenshot] else [])

/-- The first operation of the list whose promise rejects, if any: the
try block runs the steps in order and aborts at the first rejection. -/
def firstFailing (stepFails : Step → Bool) : List Step → Option Step
  | [] => none
  | s :: rest => if stepFails s then some s else firstFailing stepFails rest

/-- The error that propagates out of scrapePage: the rejection of one of
the try steps, or a rejection of page.close itself. -/
inductive ScrapeError
  | step (s : Step)
  | closeFailure
deriving DecidableEq

/-- Observable outcome of one scrapePage call: the returned markup or the
propagated error, how many times page.close was invoked, and whether a
close attempt succeeded. -/
structure ScrapeOutcome where
  result : Except ScrapeError String
  closeCalls : Nat
  pageClosed : Bool

/-- page.ts Scraper.scrapePage after the page context has been created:
run the try steps in order; on success await page.close() inside the try
and return the markup; on any rejection the catch block awaits
page.close() once more and rethrows.  html is the page content,
stepFails says which awaited try-step promises reject, tryCloseFails and
catchCloseFails say whether the close awaited on the success path and the
close awaited in the catch block reject. -/
def scrapePage (html : String) (o : ScrapeOptions) (stepFails : Step → Bool)
    (tryCloseFails catchCloseFails : Bool) : ScrapeOutcome :=
  match firstFailing stepFails (trySteps o) with
  | some s =>
    if catchCloseFails then
      ⟨Except.error ScrapeError.closeFailure, 1, false⟩
    else
      ⟨Except.error (ScrapeError.step s), 1, true⟩
  | none =>
    if tryCloseFails then
      if catchCloseFails then
        ⟨Except.error ScrapeError.closeFailure, 2, false⟩
      else
        ⟨Except.error ScrapeError.closeFailure, 2, true⟩
    else
      ⟨Except.ok html, 1, true⟩

/-- C1 counterexample: when every pipeline step succeeds but the close
awaited inside the try block rejects, control enters the catch block,
which closes the already-closing page a second time: two close calls in
one scrapePage call. -/
theorem scrapePage_close_once_counterexample :
    (scrapePage "h" ⟨false, false, true⟩ (fun _ => false) true false).closeCalls = 2 ∧
    (scrapePage "h" ⟨false, false, true⟩ (fun _ => false) true false).closeCalls ≠ 1 := by
  constructor
  · rfl
  · intro h
    simp [scrapePage, firstFailing, trySteps] at h

/-- C1 (amended): every scrapePage call invokes page.close at least once
and at most twice before returning or throwing; when the success-path
close does not reject, the page is closed exactly once on every exit path;
two close calls happen exactly when all try steps succeed and the
success-path close itself rejects, in which case the catch block issues
the second close. -/
theorem scrapePage_close_spec (html : String) (o : ScrapeOptions)
    (stepFails : Step → Bool) (tryCloseFails catchCloseFails : Bool) :
    1 ≤ (scrapePage html o stepFails tryCloseFails catchCloseFails).closeCalls ∧
    (scrapePage html o stepFails tryCloseFails catchCloseFails).closeCalls ≤ 2 ∧
    (tryCloseFails = false →
      (scrapePage html o stepFails tryCloseFails catchCloseFails).closeCalls = 1) ∧
    ((scrapePage html o stepFails tryCloseFails catchCloseFails).closeCalls = 2 ↔
      firstFailing stepFails (trySteps o) = none ∧ tryCloseFails = true) := by
  unfold scrapePage
  cases h : firstFailing stepFails (trySteps o) with
  | some s =>
    cases catchCloseFails <;>
      simp [h]
  | none =>
    cases tryCloseFails <;> cases catchCloseFails <;> simp [h]

/-- Witness for scrapePage_close_spec: with no failures at all the page is
closed exactly once. -/
theorem scrapePage_close_spec_witness :
    (scrapePage "h" ⟨false, false, true⟩ (fun _ => false) false false).closeCalls = 1 :=
  (scrapePage_close_spec "h" ⟨false, false, true⟩ (fun _ => false) false false).2.2.1 rfl

/-- C10: when a try step fails, the catch block awaits page.close before
rethrowing; the propagated error is the original step error when that
close resolves, but when the close itself rejects, the close failure is
what propagates, replacing the original error; the close is attempted
exactly once on this path. -/
theorem scrapePage_catch_spec (html : String) (o : ScrapeOptions)
    (stepFails : Step → Bool) (tryCloseFails catchCloseFails : Bool) (s : Step)
    (h : firstFailing stepFails (trySteps o) = some s) :
    (scrapePage html o stepFails tryCloseFails catchCloseFails).result =
      (if catchCloseFails then Except.error ScrapeError.closeFailure
       else Except.error (ScrapeError.step s)) ∧
    (scrapePage html o stepFails tryCloseFails catchCloseFails).closeCalls = 1 ∧
    (scrapePage html o stepFails tryCloseFails catchCloseFails).pageClosed =
      !catchCloseFails := by
  unfold scrapePage
  rw [h]
  cases catchCloseFails <;> simp

/-- Witness for scrapePage_catch_spec: a failing navigation with a failing
catch-block close propagates the close failure, masking the navigation
error. -/
theorem scrapePage_catch_spec_witness :
    (scrapePage "h" ⟨false, false, true⟩ (fun s => s = Step.goto) false true).result =
      Except.error ScrapeError.closeFailure := by
  have h :=
    (scrapePage_catch_spec "h" ⟨false, false, true⟩ (fun s => s = Step.goto) false true
      Step.goto (by rfl)).1
  rw [h]
  rfl

/-! ## llm.ts: declutterToMarkdown -/

/-- The error thrown at the top of declutterToMarkdown when the input is
blank (the JavaScript falsy test on a string holds exactly for the empty
string). -/
inductive LlmError
  | emptyInput
deriving DecidableEq

/-- utility.ts StringBuilder: a list of parts; stringify joins them, or
yields undefined when no part was added. -/
structure StringBuilder where
  parts : List String

/-- StringBuilder.stringify: the concatenation of the parts, or none when
the parts list is empty. -/
def StringBuilder.stringify (sb : StringBuilder) : Option String :=
  if sb.parts.length > 0 then some (concatAll sb.parts) else none

/-- Observable outcome of declutterToMarkdown: the returned text (possibly
undefined) or the thrown error, and whether the streamText call to the
text-generation service was made. -/
structure DistillTrace where
  result : Except LlmError (Option String)
  networkCalled : Bool

/-- llm.ts declutterToMarkdown: throw on blank input before anything else;
otherwise call streamText, fold the arriving chunks into a StringBuilder
in arrival order, and return its stringify.  chunks is the text stream the
service produces. -/
def declutterToMarkdown (toDeclutter : String) (chunks : List String) : DistillTrace :=
  if toDeclutter = "" then
    ⟨Except.error LlmError.emptyInput, false⟩
  else
    ⟨Except.ok (StringBuilder.stringify ⟨chunks⟩), true⟩

/-- C4: on blank (empty) input, declutterToMarkdown fails with the
EmptyInput error and no call to the text-generation service is attempted;
on non-blank input, no EmptyInput error is raised and the service is
called. -/
theorem declutterToMarkdown_emptyInput (toDeclutter : String) (chunks : List String) :
    (toDeclutter = "" →
      declutterToMarkdown toDeclutter chunks =
        ⟨Except.error LlmError.emptyInput, false⟩) ∧
    (toDeclutter ≠ "" →
      (declutterToMarkdown toDeclutter chunks).result ≠
          Except.error LlmError.emptyInput ∧
        (declutterToMarkdown toDeclutter chunks).networkCalled = true) := by
  constructor
  · intro h
    simp [declutterToMarkdown, h]
  · intro h
    simp [declutterToMarkdown, h]

/-- Witness for declutterToMarkdown_emptyInput: the blank call fails before
the network, the non-blank call reaches the network. -/
theorem declutterToMarkdown_emptyInput_witness :
    declutterToMarkdown "" ["x"] = ⟨Except.error LlmError.emptyInput, false⟩ ∧
    (declutterToMarkdown "doc" ["x"]).networkCalled = true :=
  ⟨(declutterToMarkdown_emptyInput "" ["x"]).1 rfl,
    ((declutterToMarkdown_emptyInput "doc" ["x"]).2 (by decide)).2⟩

/-! ## declutter.ts and outputs.ts: objectToMarkdownTable and writeOutput -/

/-- node path.sep on the POSIX platforms the artifact paths are specified
for. -/
def pathSep : String := "/"

/-- The regex replace of camelToTitleCase: insert a space before every
ASCII uppercase letter. -/
def insertSpacesBeforeCaps (s : String) : String :=
  ⟨(s.data.map (fun c => if c.isUpper then [' ', c] else [c])).flatten⟩

/-- declutter.ts camelToTitleCase: insert spaces before uppercase letters,
trim, and capitalize the first character. -/
def camelToTitleCase (s : String) : String :=
  match (jsTrim (insertSpacesBeforeCaps s)).data with
  | [] => ""
  | c :: cs => ⟨c.toUpper :: cs⟩

/-- declutter.ts objectToMarkdownTable without the optional fieldLabels
argument (the one call site does not pass it): a fixed header and divider,
then one pipe row per entry with the key mapped by camelToTitleCase; a
null or undefined value displays as the empty string, which the embedding
carries as an Option on the already stringified value. -/
def objectToMarkdownTable (entries : List (String × Option String)) : String :=
  let allRows :=
    "| Metadata | Value |
|-------|-------|" ::
      entries.map (fun e =>
        "| " ++ camelToTitleCase e.1 ++ " | " ++ e.2.getD "" ++ " |")
  "

 " ++ joinSep "
" allRows

/-- The metadata entries built by declutterUrl: the address href, the
formatted timestamp, and the three token counters of the distillation
result (already rendered to display strings, absent when undefined). -/
def declutterMetadataTable (href time : String) (iTok oTok tTok : Option String) : String :=
  objectToMarkdownTable
    [("url", some href), ("time", some time), ("inputTokens", iTok),
      ("outputTokens", oTok), ("totalTokens", tTok)]

/-- The markdown document declutterUrl persists: the decluttered body
followed by the metadata table when the body is truthy (defined and
non-empty), the metadata table alone otherwise. -/
def declutterContent (href time : String) (iTok oTok tTok : Option String)
    (decluttered : Option String) : String :=
  match decluttered with
  | some d =>
    if d = "" then declutterMetadataTable href time iTok oTok tTok
    else d ++ declutterMetadataTable href time iTok oTok tTok
  | none => declutterMetadataTable href time iTok oTok tTok

/-- Errors thrown by writeOutput: the default switch branch for an
unrecognized format, and printPdf's browser-not-initialized error. -/
inductive WriteError
  | unknownFormat
  | browserNotInitialized
deriving DecidableEq

/-- File-system trace of one writeOutput call: the directories created
recursively, the files written in order, and the returned or thrown
outcome. -/
structure FsTrace where
  dirsCreated : List String
  filesWritten : List (String × String)
  result : Except WriteError Unit

/-- outputs.ts writeOutput: derive the path parts from the url, mkdirSync
the final directory recursively, then switch on the format: md writes the
markdown; html writes the styled html then also the raw markdown; pdf
prints the styled document through the scraper (throwing when its browser
is not initialized) then also writes the raw markdown; any other format
throws the unknown-format error.  styleRendered and pdfRendered stand for
the styledHtml(markdownToHtml(...)) renderings the branches compute. -/
def writeOutput (outputDirectory : String) (url : Url) (declutteredMarkdown : String)
    (outputFormat : String) (styleRendered pdfRendered : String) (sc : Scraper) : FsTrace :=
  let finalDirectory :=
    outputDirectory ++ pathSep ++ "Decluttered" ++ pathSep ++ (pathFromUrl url).directory
  let finalPath := finalDirectory ++ pathSep ++ (pathFromUrl url).fileStem
  if outputFormat = "md" then
    ⟨[finalDirectory], [(finalPath ++ ".md", declutteredMarkdown)], Except.ok ()⟩
  else if outputFormat = "html" then
    ⟨[finalDirectory],
      [(finalPath ++ ".html", styleRendered), (finalPath ++ ".md", declutteredMarkdown)],
      Except.ok ()⟩
  else if outputFormat = "pdf" then
    if sc.browser then
      ⟨[finalDirectory],
        [(finalPath ++ ".pdf", pdfRendered), (finalPath ++ ".md", declutteredMarkdown)],
        Except.ok ()⟩
    else
      ⟨[finalDirectory], [], Except.error WriteError.browserNotInitialized⟩
  else
    ⟨[finalDirectory], [], Except.error WriteError.unknownFormat⟩

/-- C9: writeOutput creates the destination directory recursively in every
case, before dispatching on the format; for a format outside md, html and
pdf it throws the unknown-format error with the directory created but no
file written. -/
theorem writeOutput_mkdir_unknown_format (outputDirectory : String) (url : Url)
    (md fmt sh ph : String) (sc : Scraper) :
    (writeOutput outputDirectory url md fmt sh ph sc).dirsCreated =
      [outputDirectory ++ pathSep ++ "Decluttered" ++ pathSep ++
        (pathFromUrl url).directory] ∧
    (fmt ≠ "md" → fmt ≠ "html" → fmt ≠ "pdf" →
      (writeOutput outputDirectory url md fmt sh ph sc).result =
          Except.error WriteError.unknownFormat ∧
        (writeOutput outputDirectory url md fmt sh ph sc).filesWritten = []) := by
  constructor
  · unfold writeOutput
    dsimp only
    split
    · rfl
    · split
      · rfl
      · split
        · split <;> rfl
        · rfl
  · intro h1 h2 h3
    unfold writeOutput
    dsimp only
    rw [if_neg h1, if_neg h2, if_neg h3]
    exact ⟨rfl, rfl⟩

/-- Witness for writeOutput_mkdir_unknown_format: the format docx throws
the unknown-format error, creating the directory and writing nothing. -/
theorem writeOutput_mkdir_unknown_format_witness :
    (writeOutput "/tmp" ⟨"example.com", "/a"⟩ "body" "docx" "s" "p" ⟨true⟩).result =
        Except.error WriteError.unknownFormat ∧
      (writeOutput "/tmp" ⟨"example.com", "/a"⟩ "body" "docx" "s" "p" ⟨true⟩).filesWritten
        = [] :=
  (writeOutput_mkdir_unknown_format "/tmp" ⟨"example.com", "/a"⟩ "body" "docx" "s" "p"
    ⟨true⟩).2 (by decide) (by decide) (by decide)

/-- C7: a markdown-format run on the address with host example.com and
path /a/b/article writes its single artifact to
outputDirectory/Decluttered/example-com/article.md; the content is the
distilled body followed by the metadata table whose keys are exactly Url,
Time, Input Tokens, Output Tokens and Total Tokens, and the metadata table
is present even when the distilled body is absent. -/
theorem declutterUrl_markdown_artifact (dir href time : String)
    (iTok oTok tTok : Option String) (decluttered : Option String)
    (sh ph : String) (sc : Scraper) :
    (writeOutput dir ⟨"example.com", "/a/b/article"⟩
        (declutterContent href time iTok oTok tTok decluttered) "md" sh ph sc).filesWritten =
      [(dir ++ "/Decluttered/example-com/article.md",
        declutterContent href time iTok oTok tTok decluttered)] ∧
    declutterMetadataTable href time iTok oTok tTok =
      "

 " ++ joinSep "
"
        ["| Metadata | Value |
|-------|-------|",
         "| Url | " ++ href ++ " |",
         "| Time | " ++ time ++ " |",
         "| Input Tokens | " ++ iTok.getD "" ++ " |",
         "| Output Tokens | " ++ oTok.getD "" ++ " |",
         "| Total Tokens | " ++ tTok.getD "" ++ " |"] ∧
    (decluttered = none →
      declutterContent href time iTok oTok tTok decluttered =
        declutterMetadataTable href time iTok oTok tTok) ∧
    (∀ d : String, decluttered = some d → d ≠ "" →
      declutterContent href time iTok oTok tTok decluttered =
        d ++ declutterMetadataTable href time iTok oTok tTok) := by
  refine ⟨?_, ?_, ?_, ?_⟩
  · unfold writeOutput
    dsimp only
    rw [if_pos rfl,
      show pathFromUrl ⟨"example.com", "/a/b/article"⟩ = ⟨"example-com", "article"⟩
        from by decide]
    refine congrArg (fun p => [(p, declutterContent href time iTok oTok tTok decluttered)]) ?_
    refine String.ext ?_
    simp only [pathSep, String.data_append, List.append_assoc]
    rfl
  · unfold declutterMetadataTable objectToMarkdownTable
    dsimp only [List.map]
    rw [show camelToTitleCase "url" = "Url" from by decide,
      show camelToTitleCase "time" = "Time" from by decide,
      show camelToTitleCase "inputTokens" = "Input Tokens" from by decide,
      show camelToTitleCase "outputTokens" = "Output Tokens" from by decide,
      show camelToTitleCase "totalTokens" = "Total Tokens" from by decide]
    refine String.ext ?_
    simp only [joinSep, String.data_append, List.append_assoc]
    rfl
  · intro h
    subst h
    rfl
  · intro d h hne
    subst h
    simp only [declutterContent]
    rw [if_neg hne]

/-- Witness for declutterUrl_markdown_artifact: with an absent distilled
body the persisted content is exactly the metadata table. -/
theorem declutterUrl_markdown_artifact_witness :
    declutterContent "u" "t" none none none none =
      declutterMetadataTable "u" "t" none none none :=
  (declutterUrl_markdown_artifact "" "u" "t" none none none none "s" "p" ⟨true⟩).2.2.1 rfl

/-! ## declutter.ts: declutterUrl -/

/-- Errors of one declutterUrl run: launch failure of the browser, a
failure of one of the pipeline stages in the try body, or a rejection of
the scraper close awaited in the finally block (which then masks the body
outcome). -/
inductive RunError
  | launchFailure
  | scrapeFailure
  | distillFailure
  | writeFailure
  | closeFailure
deriving DecidableEq

/-- The try body of declutterUrl after initialization: scrapePage, the
markdown conversion (pure), declutterToMarkdown, writeOutput, in strict
sequence; the first rejection aborts the body with that stage's error. -/
def pipelineBody (scrapeFails distillFails writeFails : Bool) : Except RunError Unit :=
  if scrapeFails then Except.error RunError.scrapeFailure
  else if distillFails then Except.error RunError.distillFailure
  else if writeFails then Except.error RunError.writeFailure
  else Except.ok ()

/-- Observable outcome of one declutterUrl invocation: whether the finally
block invoked scraper.close, the browser handle state after the run, and
the value returned or error propagated. -/
structure RunOutcome where
  closeCalled : Bool
  finalBrowser : Bool
  result : Except RunError Unit

/-- declutter.ts declutterUrl: inside try, initialize the module scraper
when not yet initialized (a launch rejection leaves the handle null), then
run the pipeline body; the finally block always awaits scraper.close,
whose own rejection replaces the body outcome.  s0 is the module scraper
state on entry, the flags say which awaited operations reject. -/
def declutterUrlRun (s0 : Scraper)
    (initFails scrapeFails distillFails writeFails closeTermFails : Bool) : RunOutcome :=
  let body : Except RunError Unit × Scraper :=
    if s0.isInitialized then
      (pipelineBody scrapeFails distillFails writeFails, s0)
    else if initFails then
      (Except.error RunError.launchFailure, s0)
    else
      (pipelineBody scrapeFails distillFails writeFails, ⟨true⟩)
  match Scraper.close closeTermFails body.2 with
  | Except.error _ => ⟨true, body.2.browser, Except.error RunError.closeFailure⟩
  | Except.ok s1 => ⟨true, s1.browser, body.1⟩

/-- C8: every declutterUrl invocation reaches the finally block and invokes
scraper.close there, whatever combination of stages failed; whenever the
underlying browser termination does not fail, the browser handle is down
when the call completes. -/
theorem declutterUrl_always_closes (s0 : Scraper)
    (initFails scrapeFails distillFails writeFails closeTermFails : Bool) :
    (declutterUrlRun s0 initFails scrapeFails distillFails writeFails
        closeTermFails).closeCalled = true ∧
    (closeTermFails = false →
      (declutterUrlRun s0 initFails scrapeFails distillFails writeFails
        closeTermFails).finalBrowser = false) := by
  rcases s0 with ⟨b⟩
  cases b <;> cases initFails <;> cases closeTermFails <;>
    simp [declutterUrlRun, Scraper.close, Scraper.isInitialized]

/-- Witness for declutterUrl_always_closes: a run whose scrape stage fails
still ends with the browser handle cleared. -/
theorem declutterUrl_always_closes_witness :
    (declutterUrlRun ⟨false⟩ false true false false false).finalBrowser = false :=
  (declutterUrl_always_closes ⟨false⟩ false true false false false).2 rfl

end Declutter
